import Mathlib

/-!
Verification development for `led_control.py` (System76LedControl).

The Python source is shallowly embedded below.  Numeric values that are
Python floats are modelled as rationals (`ℚ`), Python ints as `ℤ`/`ℕ`,
and the sysfs writes performed by a call are returned explicitly as a
list of `(path, payload)` pairs.  Wall-clock time is passed in as an
explicit parameter: a health-monitor update receives `now` (the value of
`time.time()` at the rate-limit check, which is also the recorded
`start`) and `fin` (the value of `time.time()` after the HTTP request
returns, used both for the elapsed-time comparison and for the new
`last_update` stamp).  The HTTP collaborator is modelled by its outcome:
`Except.error ()` for a raised transport error, `Except.ok code` for a
response with status `code`.
-/

/-- Lowercase hexadecimal digit character for `n < 16`, as produced by
Python's `hex` ('0'..'9' are codepoints 48.., 'a'..'f' are 87+n). -/
def hexDigit (n : ℕ) : Char :=
  if n < 10 then Char.ofNat (48 + n) else Char.ofNat (87 + n)

/-- Embedding of `int_to_hex` (led_control.py lines 9-16): clamp an int
to a two-character lowercase hex string.  In the in-range branch the
Python code formats `hex(_int)[2:]` zero-padded to width 2, which for
`0 ≤ i ≤ 255` is exactly the two digits `i / 16` and `i % 16`. -/
def int_to_hex (i : ℤ) : String :=
  if i > 255 then "ff"
  else if i < 0 then "00"
  else String.mk [hexDigit (i.toNat / 16), hexDigit (i.toNat % 16)]

/-- Python's `int()` applied to a (finite) real value: truncation toward
zero. -/
def pytrunc (x : ℚ) : ℤ := if 0 ≤ x then ⌊x⌋ else -⌊-x⌋

/-- Embedding of `rgb_to_str` (lines 19-21): `"".join(int_to_hex(int(x))
for x in _list)`. -/
def rgb_to_str (l : List ℚ) : String :=
  String.join (l.map (fun x => int_to_hex (pytrunc x)))

/-- The writes performed by `Monitor._update_leds` (lines 45-49): the
current colour string is written to the path suffix `"color_" + zone`
for every zone of the monitor. -/
def update_leds (locations : List String) (colour : String) : List (String × String) :=
  locations.map (fun loc => ("color_" ++ loc, colour))

/-- The value written by `Monitor._update_brighness` (lines 41-43):
`max(100, min(0, int(brightness)))`. -/
def update_brighness (brightness : ℤ) : ℤ := max 100 (min 0 brightness)

/-- The fixed zone enumeration of `Monitor.__init__` (line 30). -/
def valid_locations : List String := ["left", "right", "center", "extra"]

/-- The `locations` argument of `Monitor.__init__`: either a single zone
name (a Python `str`) or a collection of zone names. -/
inductive Locations where
  | str (s : String)
  | list (l : List String)

/-- Normalisation at lines 27-28: a single string becomes a one-element
list. -/
def normalize_locations : Locations → List String
  | Locations.str s => [s]
  | Locations.list l => l

/-- The validation loop of `Monitor.__init__` (lines 29-32): each
location is checked against `valid_locations` and added to the set
(modelled as a duplicate-free list); the first invalid location raises
`AttributeError`.  An empty input list leaves the set empty without any
error. -/
def add_locations : List String → List String → Except String (List String)
  | acc, [] => Except.ok acc
  | acc, loc :: rest =>
    if loc ∈ valid_locations then
      add_locations (if loc ∈ acc then acc else acc ++ [loc]) rest
    else Except.error (loc ++ " is not a valid location")

/-- State of the base `Monitor` (also used by `load_average`, which adds
no fields of its own). -/
structure MonitorState where
  locations : List String
  current_colour : String
deriving DecidableEq

/-- Embedding of `Monitor.__init__` (lines 25-39): validate the zones,
pick the colour (default blue `rgb_to_str [0,0,255]`), then perform the
initial LED writes and the brightness write.  On success it returns the
state, the LED writes, and the brightness value written. -/
def Monitor.init (locations : Locations) (dflt : Option String) :
    Except String (MonitorState × List (String × String) × ℤ) :=
  match add_locations [] (normalize_locations locations) with
  | Except.error e => Except.error e
  | Except.ok locs =>
      let colour :=
        match dflt with
        | none => rgb_to_str [0, 0, 255]
        | some c => c
      Except.ok (⟨locs, colour⟩, update_leds locs colour, update_brighness 100)

/-- Embedding of the base `Monitor.update` (lines 51-52): `pass` — no
state change and no writes. -/
def Monitor.update (s : MonitorState) : MonitorState × List (String × String) :=
  (s, [])

/-- The `status_colours` table of `site_health` (lines 57-62), modelled
as a lookup function on the four keys. -/
def site_health.status_colours (status : String) : String :=
  if status = "unknown" then rgb_to_str [0, 0, 255]
  else if status = "good" then rgb_to_str [0, 255, 0]
  else if status = "degraded" then rgb_to_str [192, 192, 0]
  else rgb_to_str [255, 0, 0]

/-- State of a `site_health` monitor (lines 55-75). -/
structure SiteHealthState where
  locations : List String
  current_colour : String
  url : String
  headers : List (String × String)
  timeout : ℚ
  frequency : ℚ
  last_update : ℚ

/-- Embedding of `site_health.update` (lines 77-95).  `now` is
`time.time()` at the rate-limit check (also the recorded `start`); `fin`
is `time.time()` after the request returns, so the elapsed time of the
request is `fin - now`; `resp` is the outcome of the HTTP collaborator.
The result is the new state, the LED writes performed, and the number of
HTTP requests issued (0 on the rate-limited path, 1 otherwise). -/
def site_health.update (s : SiteHealthState) (now fin : ℚ) (resp : Except Unit ℤ) :
    SiteHealthState × List (String × String) × ℕ :=
  if now - s.last_update < s.frequency then (s, [], 0)
  else
    let colour :=
      match resp with
      | Except.error _ => site_health.status_colours "unknown"
      | Except.ok code =>
          if code = 200 ∧ fin - now < 1 then site_health.status_colours "good"
          else if code = 200 then site_health.status_colours "degraded"
          else site_health.status_colours "bad"
    ({ s with current_colour := colour, last_update := fin },
      update_leds s.locations colour, 1)

/-- The hard-coded `cpu_cores = 8` of `load_average.update` (line 108). -/
def load_average.cpu_cores : ℕ := 8

/-- Embedding of `load_average.update` (lines 107-111); `loadavg1m` is
the sampled 1-minute load average `os.getloadavg()[0]`. -/
def load_average.update (s : MonitorState) (loadavg1m : ℚ) :
    MonitorState × List (String × String) :=
  let load_avg := min (255 * loadavg1m / (load_average.cpu_cores : ℚ)) 255
  let colour := rgb_to_str [load_avg, 255 - load_avg, 0]
  ({ s with current_colour := colour }, update_leds s.locations colour)

/-- State of a `pulse` monitor (lines 114-127). -/
structure PulseState where
  locations : List String
  current_colour : String
  a_colour : List ℚ
  b_colour : List ℚ
  position : ℚ
  speed : ℚ

/-- Embedding of `pulse.update` (lines 129-140): interpolate the three
channels at the current `position`, write the colour, then advance
`position` by `speed` and wrap to 0 when it exceeds 100.  List indexing
`a[x]` is modelled with `getD` (the Python code would raise on colour
lists shorter than 3; theorems about the colour lists carry explicit
length-3 hypotheses). -/
def pulse.update (s : PulseState) : PulseState × List (String × String) :=
  let p := s.position
  let colour := (List.range 3).map
    (fun x => s.a_colour.getD x 0 * (100 - p) / 100 + s.b_colour.getD x 0 * p / 100)
  let cstr := rgb_to_str colour
  ({ s with current_colour := cstr,
            position := if s.position + s.speed > 100 then 0 else s.position + s.speed },
    update_leds s.locations cstr)

/-- Decidable check: `c` is a lowercase hexadecimal character. -/
def is_hex_char (c : Char) : Bool :=
  decide (('0' ≤ c ∧ c ≤ '9') ∨ ('a' ≤ c ∧ c ≤ 'f'))

/-- Decidable check: `s` is a string of exactly 6 lowercase hexadecimal
characters (the canonical serialized colour form). -/
def isHexColour (s : String) : Bool :=
  s.length == 6 && s.data.all is_hex_char

/-- Numeric value of a lowercase hexadecimal character. -/
def hexCharVal (c : Char) : ℕ := if c ≤ '9' then c.toNat - 48 else c.toNat - 87

/-- Numeric value of a lowercase hexadecimal string (most significant
digit first). -/
def hexStrVal (s : String) : ℕ :=
  s.data.foldl (fun a c => 16 * a + hexCharVal c) 0

/-- One scheduler tick of a pulse monitor: the state after `update()`. -/
def pulse_tick (s : PulseState) : PulseState := (pulse.update s).1

/-- The concrete pulse monitor of the spec's test scenario: zones
`{left}`, colourA = blue `[0,0,255]`, colourB = red `[255,0,0]`,
position 0, speed 5 (the initial colour string is the default blue). -/
def pulse_test_state : PulseState :=
  ⟨["left"], "0000ff", [0, 0, 255], [255, 0, 0], 0, 5⟩

/-- The pulse test state after `n` scheduler ticks. -/
def pulse_state_after (n : ℕ) : PulseState := pulse_tick^[n] pulse_test_state

/-- Position dynamics of the pulse monitor in isolation: `n` steps of
`position += speed; if position > 100: position = 0` starting at `p`. -/
def posIter (speed : ℚ) : ℕ → ℚ → ℚ
  | 0, p => p
  | n + 1, p =>
      let q := posIter speed n p
      if q + speed > 100 then 0 else q + speed

/-- A concrete health monitor: zones `{left}`, colour `unknown` blue,
timeout 5, frequency 10, `last_update = 0`. -/
def health_test_state : SiteHealthState :=
  ⟨["left"], "0000ff", "http://example.test/health", [], 5, 10, 0⟩

/-! ### Helper lemmas about the colour codec -/

lemma hexDigit_is_hex : ∀ n < 16, is_hex_char (hexDigit n) = true := by decide

lemma hexDigit_val : ∀ n < 16, hexCharVal (hexDigit n) = n := by decide

lemma int_to_hex_ok (i : ℤ) :
    (int_to_hex i).length = 2 ∧ (int_to_hex i).data.all is_hex_char = true := by
  unfold int_to_hex
  split
  · exact ⟨by decide, by decide⟩
  · split
    · exact ⟨by decide, by decide⟩
    · rename_i h1 h2
      have h16a : i.toNat / 16 < 16 := by omega
      have h16b : i.toNat % 16 < 16 := by omega
      refine ⟨rfl, ?_⟩
      simp [hexDigit_is_hex _ h16a, hexDigit_is_hex _ h16b]

lemma int_to_hex_ge_255 (i : ℤ) (h : 255 ≤ i) : int_to_hex i = "ff" := by
  unfold int_to_hex
  rcases lt_or_eq_of_le h with h2 | h2
  · rw [if_pos h2]
  · subst h2
    decide

lemma int_to_hex_le_0 (i : ℤ) (h : i ≤ 0) : int_to_hex i = "00" := by
  unfold int_to_hex
  rcases lt_or_eq_of_le h with h2 | h2
  · rw [if_neg (by omega), if_pos h2]
  · subst h2
    decide

lemma int_to_hex_in_range (i : ℤ) (h0 : 0 ≤ i) (h255 : i ≤ 255) :
    int_to_hex i = String.mk [hexDigit (i.toNat / 16), hexDigit (i.toNat % 16)] := by
  unfold int_to_hex
  rw [if_neg (by omega), if_neg (by omega)]

lemma pytrunc_of_nonneg (v : ℚ) (h : 0 ≤ v) : pytrunc v = ⌊v⌋ := if_pos h

lemma pytrunc_of_neg (v : ℚ) (h : v < 0) : pytrunc v = -⌊-v⌋ := if_neg (not_le.mpr h)

lemma pytrunc_le_zero_of_neg (v : ℚ) (h : v < 0) : pytrunc v ≤ 0 := by
  rw [pytrunc_of_neg v h]
  have : (0:ℤ) ≤ ⌊-v⌋ := Int.floor_nonneg.mpr (by linarith)
  omega

lemma pytrunc_bounds (v : ℚ) (h0 : 0 ≤ v) (h255 : v ≤ 255) :
    0 ≤ pytrunc v ∧ pytrunc v ≤ 255 := by
  rw [pytrunc_of_nonneg v h0]
  constructor
  · exact Int.floor_nonneg.mpr h0
  · have h1 : (⌊v⌋ : ℚ) ≤ 255 := le_trans (Int.floor_le v) h255
    exact_mod_cast h1

lemma rgb_to_str_three (r g b : ℚ) :
    rgb_to_str [r, g, b] =
      int_to_hex (pytrunc r) ++ int_to_hex (pytrunc g) ++ int_to_hex (pytrunc b) := by
  simp [rgb_to_str, String.join]

lemma rgb_to_str_isHex (l : List ℚ) (h : l.length = 3) :
    isHexColour (rgb_to_str l) = true := by
  obtain ⟨r, g, b, rfl⟩ := List.length_eq_three.mp h
  rw [rgb_to_str_three]
  obtain ⟨hrl, hrc⟩ := int_to_hex_ok (pytrunc r)
  obtain ⟨hgl, hgc⟩ := int_to_hex_ok (pytrunc g)
  obtain ⟨hbl, hbc⟩ := int_to_hex_ok (pytrunc b)
  unfold isHexColour
  rw [Bool.and_eq_true, beq_iff_eq]
  constructor
  · simp [String.length_append, hrl, hgl, hbl]
  · simp only [String.data_append, List.all_append, hrc, hgc, hbc]
    decide

lemma rgb_eval_blue : rgb_to_str [0, 0, 255] = "0000ff" := by
  have h0 : pytrunc 0 = 0 := by norm_num [pytrunc]
  have h255 : pytrunc 255 = 255 := by norm_num [pytrunc]
  rw [rgb_to_str_three, h0, h255]
  decide

lemma rgb_eval_green : rgb_to_str [0, 255, 0] = "00ff00" := by
  have h0 : pytrunc 0 = 0 := by norm_num [pytrunc]
  have h255 : pytrunc 255 = 255 := by norm_num [pytrunc]
  rw [rgb_to_str_three, h0, h255]
  decide

lemma rgb_eval_olive : rgb_to_str [192, 192, 0] = "c0c000" := by
  have h0 : pytrunc 0 = 0 := by norm_num [pytrunc]
  have h192 : pytrunc 192 = 192 := by norm_num [pytrunc]
  rw [rgb_to_str_three, h0, h192]
  decide

lemma rgb_eval_red : rgb_to_str [255, 0, 0] = "ff0000" := by
  have h0 : pytrunc 0 = 0 := by norm_num [pytrunc]
  have h255 : pytrunc 255 = 255 := by norm_num [pytrunc]
  rw [rgb_to_str_three, h0, h255]
  decide

/-! ### Claims C4 and C6 -/

/-- C4: for every requested brightness value, the value actually written
to the brightness path by `Monitor._update_brighness` is the constant
100 regardless of the input (the inverted clamp `max(100, min(0, v))`
collapses to 100), and in particular the applied value lies in
`[0, 100]`. -/
theorem claim4_brightness_constant :
    ∀ value : ℤ, update_brighness value = 100 ∧
      0 ≤ update_brighness value ∧ update_brighness value ≤ 100 := by
  intro value
  unfold update_brighness
  omega

/-- C6: per-channel conversion `int_to_hex ∘ pytrunc` (the spec's
`clampChannelToHex`) clamps to `"ff"` above 255 and `"00"` below 0, and
in `[0,255]` produces a 2-character lowercase-hex string that decodes
back to the truncated integer; `rgb_to_str` (the spec's `colorToHex`) is
the concatenation over the three channels in R,G,B order, with
`rgb_to_str [0,0,255] = "0000ff"`, `rgb_to_str [255,0,0] = "ff0000"`,
and `rgb_to_str [300,-5,128] = "ff0080"`. -/
theorem claim6_colour_codec (v : ℚ) :
    (v > 255 → int_to_hex (pytrunc v) = "ff") ∧
    (v < 0 → int_to_hex (pytrunc v) = "00") ∧
    (0 ≤ v → v ≤ 255 →
      (int_to_hex (pytrunc v)).length = 2 ∧
      (int_to_hex (pytrunc v)).data.all is_hex_char = true ∧
      (hexStrVal (int_to_hex (pytrunc v)) : ℤ) = pytrunc v) ∧
    (∀ r g b : ℚ, rgb_to_str [r, g, b] =
      int_to_hex (pytrunc r) ++ int_to_hex (pytrunc g) ++ int_to_hex (pytrunc b)) ∧
    rgb_to_str [0, 0, 255] = "0000ff" ∧
    rgb_to_str [255, 0, 0] = "ff0000" ∧
    rgb_to_str [300, -5, 128] = "ff0080" := by
  refine ⟨?_, ?_, ?_, rgb_to_str_three, rgb_eval_blue, rgb_eval_red, ?_⟩
  · intro h
    apply int_to_hex_ge_255
    rw [pytrunc_of_nonneg v (by linarith)]
    exact Int.le_floor.mpr (by exact_mod_cast le_of_lt h)
  · intro h
    exact int_to_hex_le_0 _ (pytrunc_le_zero_of_neg v h)
  · intro h0 h255
    obtain ⟨hl, hu⟩ := pytrunc_bounds v h0 h255
    refine ⟨(int_to_hex_ok _).1, (int_to_hex_ok _).2, ?_⟩
    rw [int_to_hex_in_range _ hl hu]
    have h16a : (pytrunc v).toNat / 16 < 16 := by omega
    have h16b : (pytrunc v).toNat % 16 < 16 := by omega
    unfold hexStrVal
    simp only [List.foldl]
    rw [hexDigit_val _ h16a, hexDigit_val _ h16b]
    omega
  · have h300 : pytrunc 300 = 300 := by norm_num [pytrunc]
    have hm5 : pytrunc (-5) = -5 := by norm_num [pytrunc]
    have h128 : pytrunc 128 = 128 := by norm_num [pytrunc]
    rw [rgb_to_str_three, h300, hm5, h128]
    decide

/-- Witness for C6: the three clamp regimes at the concrete channel
values 300, -5 and 128 of the spec's test vector. -/
theorem claim6_colour_codec_witness :
    int_to_hex (pytrunc 300) = "ff" ∧ int_to_hex (pytrunc (-5)) = "00" ∧
    (hexStrVal (int_to_hex (pytrunc 128)) : ℤ) = pytrunc 128 :=
  ⟨(claim6_colour_codec 300).1 (by norm_num),
   (claim6_colour_codec (-5)).2.1 (by norm_num),
   (((claim6_colour_codec 128).2.2.1 (by norm_num) (by norm_num)).2.2)⟩

/-! ### Helper lemmas about the health monitor -/

lemma status_unknown_eval : site_health.status_colours "unknown" = "0000ff" := by
  simp [site_health.status_colours, rgb_eval_blue]

lemma status_good_eval : site_health.status_colours "good" = "00ff00" := by
  simp [site_health.status_colours, rgb_eval_green]

lemma status_degraded_eval : site_health.status_colours "degraded" = "c0c000" := by
  simp [site_health.status_colours, rgb_eval_olive]

lemma status_bad_eval : site_health.status_colours "bad" = "ff0000" := by
  simp [site_health.status_colours, rgb_eval_red]

lemma site_health_update_eq (s : SiteHealthState) (now fin : ℚ) (resp : Except Unit ℤ)
    (h : ¬ now - s.last_update < s.frequency) :
    site_health.update s now fin resp =
      ({ s with
          current_colour :=
            match resp with
            | Except.error _ => site_health.status_colours "unknown"
            | Except.ok code =>
                if code = 200 ∧ fin - now < 1 then site_health.status_colours "good"
                else if code = 200 then site_health.status_colours "degraded"
                else site_health.status_colours "bad",
          last_update := fin },
        update_leds s.locations
          (match resp with
            | Except.error _ => site_health.status_colours "unknown"
            | Except.ok code =>
                if code = 200 ∧ fin - now < 1 then site_health.status_colours "good"
                else if code = 200 then site_health.status_colours "degraded"
                else site_health.status_colours "bad"), 1) := by
  unfold site_health.update
  rw [if_neg h]

/-! ### Claims C1, C2, C3 -/

/-- C1: when `now - last_update < frequency`, `site_health.update`
returns immediately — identical state, no LED writes, no HTTP request;
consequently a non-rate-limited call followed by a second call within
`frequency` seconds of its completion issues exactly one HTTP request in
total. -/
theorem claim1_health_rate_limit (s : SiteHealthState) (now fin now2 fin2 : ℚ)
    (resp resp2 : Except Unit ℤ) :
    (now - s.last_update < s.frequency →
      site_health.update s now fin resp = (s, [], 0)) ∧
    (¬ now - s.last_update < s.frequency → now2 - fin < s.frequency →
      (site_health.update s now fin resp).2.2 +
        (site_health.update (site_health.update s now fin resp).1 now2 fin2 resp2).2.2 = 1) := by
  constructor
  · intro h
    unfold site_health.update
    rw [if_pos h]
  · intro h h2
    rw [site_health_update_eq s now fin resp h]
    unfold site_health.update
    simp [h2]

/-- Witness for C1: with frequency 10 and `last_update = 0`, a call at
time 5 is rate-limited and changes nothing, while a call at time 20
followed by one at time 25 (within 10 seconds of its completion at 20)
issues exactly one HTTP request. -/
theorem claim1_health_rate_limit_witness :
    site_health.update health_test_state 5 6 (Except.ok 200) = (health_test_state, [], 0) ∧
    (site_health.update health_test_state 20 20 (Except.ok 200)).2.2 +
      (site_health.update (site_health.update health_test_state 20 20 (Except.ok 200)).1
        25 26 (Except.ok 200)).2.2 = 1 := by
  constructor
  · exact (claim1_health_rate_limit health_test_state 5 6 25 26 (Except.ok 200)
      (Except.ok 200)).1 (by norm_num [health_test_state])
  · exact (claim1_health_rate_limit health_test_state 20 20 25 26 (Except.ok 200)
      (Except.ok 200)).2 (by norm_num [health_test_state]) (by norm_num [health_test_state])

/-- C2: on every non-rate-limited update the new colour is exactly
determined by the HTTP outcome: status 200 with elapsed time `fin - now`
under 1 second gives good `"00ff00"`, status 200 otherwise gives
degraded `"c0c000"`, any other status gives bad `"ff0000"`, and a raised
transport error gives unknown `"0000ff"`. -/
theorem claim2_health_colour_map (s : SiteHealthState) (now fin : ℚ) (resp : Except Unit ℤ)
    (h : ¬ now - s.last_update < s.frequency) :
    (site_health.update s now fin resp).1.current_colour =
      match resp with
      | Except.error _ => "0000ff"
      | Except.ok code =>
          if code = 200 ∧ fin - now < 1 then "00ff00"
          else if code = 200 then "c0c000"
          else "ff0000" := by
  rw [site_health_update_eq s now fin resp h]
  cases resp with
  | error e => simp [status_unknown_eval]
  | ok code =>
      by_cases h200 : code = 200 ∧ fin - now < 1
      · simp [h200, status_good_eval]
      · by_cases hc : code = 200
        · have hf : ¬ fin - now < 1 := fun hlt => h200 ⟨hc, hlt⟩
          simp [hc, hf, status_degraded_eval]
        · simp [h200, hc, status_bad_eval]

/-- Witness for C2: a 200 response taking half a second turns the colour
good `"00ff00"`. -/
theorem claim2_health_colour_map_witness :
    (site_health.update health_test_state 20 (41/2) (Except.ok 200)).1.current_colour =
      "00ff00" := by
  have h := claim2_health_colour_map health_test_state 20 (41/2) (Except.ok 200)
    (by norm_num [health_test_state])
  norm_num at h
  exact h

/-- C3: a transport error is absorbed inside `site_health.update` (in
this embedding the update is a total function and on `Except.error` it
sets the colour to the unknown table entry), and on every
non-rate-limited update — success or failure alike — the new colour is
written to all zones and `last_update` is set to the current time `fin`
at the end of the request. -/
theorem claim3_health_error_absorbed (s : SiteHealthState) (now fin : ℚ)
    (h : ¬ now - s.last_update < s.frequency) :
    (∀ e : Unit, (site_health.update s now fin (Except.error e)).1.current_colour =
      site_health.status_colours "unknown") ∧
    (∀ resp : Except Unit ℤ,
      (site_health.update s now fin resp).1.last_update = fin ∧
      (site_health.update s now fin resp).2.1 =
        update_leds s.locations (site_health.update s now fin resp).1.current_colour) := by
  constructor
  · intro e
    rw [site_health_update_eq s now fin _ h]
  · intro resp
    rw [site_health_update_eq s now fin resp h]
    exact ⟨rfl, rfl⟩

/-- Witness for C3: at time 20 (frequency 10, `last_update = 0`) a
transport error leaves the unknown colour, and a 200 response stamps
`last_update` with the completion time 21. -/
theorem claim3_health_error_absorbed_witness :
    (site_health.update health_test_state 20 21 (Except.error ())).1.current_colour =
      site_health.status_colours "unknown" ∧
    (site_health.update health_test_state 20 21 (Except.ok 200)).1.last_update = 21 :=
  ⟨(claim3_health_error_absorbed health_test_state 20 21
      (by norm_num [health_test_state])).1 (),
   ((claim3_health_error_absorbed health_test_state 20 21
      (by norm_num [health_test_state])).2 (Except.ok 200)).1⟩

/-! ### Helper lemmas about construction and the pulse monitor -/

lemma add_locations_isOk (rest : List String) : ∀ acc : List String,
    (add_locations acc rest).isOk =
      !(rest.any (fun loc => !(decide (loc ∈ valid_locations)))) := by
  induction rest with
  | nil => intro acc; rfl
  | cons loc rest ih =>
      intro acc
      unfold add_locations
      by_cases hl : loc ∈ valid_locations
      · rw [if_pos hl, ih]
        simp [hl]
      · rw [if_neg hl]
        simp [hl]
        rfl

lemma Monitor_init_isOk (locations : Locations) (dflt : Option String) :
    (Monitor.init locations dflt).isOk =
      (add_locations [] (normalize_locations locations)).isOk := by
  unfold Monitor.init
  cases h : add_locations [] (normalize_locations locations) with
  | error e => rfl
  | ok locs => rfl

lemma pulse_tick_position (s : PulseState) :
    (pulse_tick s).position =
      if s.position + s.speed > 100 then 0 else s.position + s.speed := rfl

lemma pulse_tick_speed (s : PulseState) : (pulse_tick s).speed = s.speed := rfl

lemma pulse_state_after_succ (n : ℕ) :
    pulse_state_after (n + 1) = pulse_tick (pulse_state_after n) := by
  unfold pulse_state_after
  rw [Function.iterate_succ_apply']

lemma pulse_state_after_speed (n : ℕ) : (pulse_state_after n).speed = 5 := by
  induction n with
  | zero => rfl
  | succ n ih => rw [pulse_state_after_succ, pulse_tick_speed, ih]

lemma pulse_state_after_position (n : ℕ) :
    (pulse_state_after n).position = posIter 5 n 0 := by
  induction n with
  | zero => rfl
  | succ n ih =>
      rw [pulse_state_after_succ, pulse_tick_position, pulse_state_after_speed, ih, posIter]

lemma posIter_20 : posIter 5 20 0 = 100 := by norm_num [posIter]

lemma posIter_21 : posIter 5 21 0 = 0 := by norm_num [posIter]

/-! ### Claims C5, C7, C8 -/

/-- Counterexample for C5: constructing a `Monitor` with an empty list
of zones succeeds (the validation loop simply never runs), returning an
empty zone set, no LED writes and brightness 100, although the claim
requires a construction error when the zone set is empty; the second
conjunct records that no element of this input is invalid, so only the
claim's emptiness clause applies. -/
theorem claim5_zone_validation_counterexample :
    Monitor.init (Locations.list []) none =
      Except.ok (⟨[], "0000ff"⟩, [], 100) ∧
    (normalize_locations (Locations.list [])).any
      (fun loc => !(decide (loc ∈ valid_locations))) = false := by
  constructor
  · have h1 : update_brighness 100 = 100 := by decide
    unfold Monitor.init
    simp [normalize_locations, add_locations, update_leds, rgb_eval_blue, h1]
  · rfl

/-- C5 (amended): `Monitor` construction fails if and only if some
supplied zone identifier (after normalizing a single-string input into a
one-element list) is outside the fixed enumeration
`{left, right, center, extra}`; an empty zone collection is accepted and
yields an empty zone set.  In particular constructing with zone `"top"`
fails and with zone `"center"` succeeds. -/
theorem claim5_zone_validation_amended (locations : Locations) (dflt : Option String) :
    ((Monitor.init locations dflt).isOk = false ↔
      (normalize_locations locations).any
        (fun loc => !(decide (loc ∈ valid_locations))) = true) ∧
    (Monitor.init (Locations.str "top") none).isOk = false ∧
    (Monitor.init (Locations.str "center") none).isOk = true := by
  refine ⟨?_, ?_, ?_⟩
  · rw [Monitor_init_isOk, add_locations_isOk]
    simp
  · rw [Monitor_init_isOk, add_locations_isOk]
    decide
  · rw [Monitor_init_isOk, add_locations_isOk]
    decide

/-- C7: the pulse monitor's `update()` interpolates each channel as
`A[c]*(100-position)/100 + B[c]*position/100` using the position value
from before it is advanced; at position 0 the written colour is exactly
colourA's hex and at position 100 (pre-wrap) exactly colourB's hex. -/
theorem claim7_pulse_interpolation (s : PulseState)
    (ha : s.a_colour.length = 3) (hb : s.b_colour.length = 3) :
    (pulse.update s).1.current_colour =
      rgb_to_str ((List.range 3).map (fun x =>
        s.a_colour.getD x 0 * (100 - s.position) / 100 +
          s.b_colour.getD x 0 * s.position / 100)) ∧
    (s.position = 0 → (pulse.update s).1.current_colour = rgb_to_str s.a_colour) ∧
    (s.position = 100 → (pulse.update s).1.current_colour = rgb_to_str s.b_colour) := by
  obtain ⟨a0, a1, a2, hA⟩ := List.length_eq_three.mp ha
  obtain ⟨b0, b1, b2, hB⟩ := List.length_eq_three.mp hb
  have hcc : (pulse.update s).1.current_colour =
      rgb_to_str ((List.range 3).map (fun x =>
        s.a_colour.getD x 0 * (100 - s.position) / 100 +
          s.b_colour.getD x 0 * s.position / 100)) := rfl
  have hr : List.range 3 = [0, 1, 2] := rfl
  refine ⟨hcc, ?_, ?_⟩
  · intro hp
    rw [hcc, hp, hA, hB]
    refine congrArg rgb_to_str ?_
    rw [hr]
    simp only [List.map_cons, List.map_nil, List.getD_cons_zero, List.getD_cons_succ]
    norm_num
  · intro hp
    rw [hcc, hp, hA, hB]
    refine congrArg rgb_to_str ?_
    rw [hr]
    simp only [List.map_cons, List.map_nil, List.getD_cons_zero, List.getD_cons_succ]
    norm_num

/-- Witness for C7: the spec's test monitor (colourA blue, colourB red)
at position 0 writes exactly colourA's hex. -/
theorem claim7_pulse_interpolation_witness :
    (pulse.update pulse_test_state).1.current_colour =
      rgb_to_str pulse_test_state.a_colour :=
  (claim7_pulse_interpolation pulse_test_state rfl rfl).2.1 rfl

/-- Counterexample for C8: starting from position 0 with speed 5, the
21st `update()` call leaves position 0, not 5 — the source wraps with
`self.position = 0`, discarding the overshoot. -/
theorem claim8_pulse_wrap_counterexample :
    (pulse_state_after 21).position = 0 ∧ (pulse_state_after 21).position ≠ 5 := by
  have h : (pulse_state_after 21).position = 0 := by
    rw [pulse_state_after_position]
    exact posIter_21
  refine ⟨h, ?_⟩
  rw [h]
  norm_num

/-- C8 (amended): the pulse monitor advances `position` by `speed` after
each `update()` and wraps to 0 (not to the overshoot) when the advanced
position exceeds 100; starting at position 0 with speed 5, after 20
calls the position is exactly 100 and the 21st call wraps it to 0, so
after 21 calls the position has wrapped exactly once. -/
theorem claim8_pulse_wrap (s : PulseState) :
    (pulse.update s).1.position =
      (if s.position + s.speed > 100 then 0 else s.position + s.speed) ∧
    (pulse_state_after 20).position = 100 ∧
    (pulse_state_after 21).position = 0 :=
  ⟨rfl,
   by rw [pulse_state_after_position]; exact posIter_20,
   by rw [pulse_state_after_position]; exact posIter_21⟩

/-! ### Helper lemmas for the load monitor and the hex invariant -/

lemma load_average_update_eq (s : MonitorState) (la : ℚ) :
    load_average.update s la =
      ({ s with current_colour :=
          rgb_to_str [min (255 * la / 8) 255, 255 - min (255 * la / 8) 255, 0] },
        update_leds s.locations
          (rgb_to_str [min (255 * la / 8) 255, 255 - min (255 * la / 8) 255, 0])) := by
  unfold load_average.update load_average.cpu_cores
  norm_num

lemma status_colours_isHex (k : String) :
    isHexColour (site_health.status_colours k) = true := by
  unfold site_health.status_colours
  split
  · exact rgb_to_str_isHex _ rfl
  split
  · exact rgb_to_str_isHex _ rfl
  split
  · exact rgb_to_str_isHex _ rfl
  · exact rgb_to_str_isHex _ rfl

/-! ### Claims C9 and C10 -/

/-- C9: `load_average.update` recomputes and writes the colour on every
tick with no internal rate limiting — for every state and every sampled
load it produces the full list of zone writes — with colour
`rgb(f, 255-f, 0)` for `f = min(255*load/cpu_cores, 255)` and the
hard-coded `cpu_cores = 8`; load 0 yields `"00ff00"` and load equal to
the core count yields `"ff0000"`. -/
theorem claim9_load_average (s : MonitorState) (la : ℚ) :
    load_average.cpu_cores = 8 ∧
    load_average.update s la =
      ({ s with current_colour :=
          rgb_to_str [min (255 * la / 8) 255, 255 - min (255 * la / 8) 255, 0] },
        update_leds s.locations
          (rgb_to_str [min (255 * la / 8) 255, 255 - min (255 * la / 8) 255, 0])) ∧
    (load_average.update s 0).1.current_colour = "00ff00" ∧
    (load_average.update s 8).1.current_colour = "ff0000" := by
  refine ⟨rfl, load_average_update_eq s la, ?_, ?_⟩
  · rw [load_average_update_eq]
    have h1 : min ((255:ℚ) * 0 / 8) 255 = 0 := by norm_num
    rw [h1]
    norm_num [rgb_eval_green]
  · rw [load_average_update_eq]
    have h1 : min ((255:ℚ) * 8 / 8) 255 = 255 := by norm_num
    rw [h1]
    norm_num [rgb_eval_red]

/-- C10: the colour produced at construction without an explicit default
(or with a default that is itself a 6-character lowercase hex string) is
a 6-character lowercase hex string, and every `update()` of every
variant — base no-op, health, load and pulse — preserves that invariant
of `current_colour`. -/
theorem claim10_hex_colour_invariant :
    (∀ (locations : Locations) (st : MonitorState) (ws : List (String × String)) (b : ℤ),
      Monitor.init locations none = Except.ok (st, ws, b) →
        isHexColour st.current_colour = true) ∧
    (∀ (locations : Locations) (d : String) (st : MonitorState)
        (ws : List (String × String)) (b : ℤ), isHexColour d = true →
      Monitor.init locations (some d) = Except.ok (st, ws, b) →
        isHexColour st.current_colour = true) ∧
    (∀ s : MonitorState, isHexColour s.current_colour = true →
      isHexColour (Monitor.update s).1.current_colour = true) ∧
    (∀ (s : SiteHealthState) (now fin : ℚ) (resp : Except Unit ℤ),
      isHexColour s.current_colour = true →
        isHexColour (site_health.update s now fin resp).1.current_colour = true) ∧
    (∀ (s : MonitorState) (la : ℚ),
      isHexColour (load_average.update s la).1.current_colour = true) ∧
    (∀ s : PulseState, isHexColour (pulse.update s).1.current_colour = true) := by
  refine ⟨?_, ?_, ?_, ?_, ?_, ?_⟩
  · intro locations st ws b h
    unfold Monitor.init at h
    cases hadd : add_locations [] (normalize_locations locations) with
    | error e =>
        rw [hadd] at h
        exact absurd h (by simp)
    | ok locs =>
        rw [hadd] at h
        simp only [Except.ok.injEq, Prod.mk.injEq] at h
        rw [← h.1]
        exact rgb_to_str_isHex _ rfl
  · intro locations d st ws b hd h
    unfold Monitor.init at h
    cases hadd : add_locations [] (normalize_locations locations) with
    | error e =>
        rw [hadd] at h
        exact absurd h (by simp)
    | ok locs =>
        rw [hadd] at h
        simp only [Except.ok.injEq, Prod.mk.injEq] at h
        rw [← h.1]
        exact hd
  · intro s h
    exact h
  · intro s now fin resp h
    by_cases hrl : now - s.last_update < s.frequency
    · unfold site_health.update
      rw [if_pos hrl]
      exact h
    · rw [site_health_update_eq s now fin resp hrl]
      cases resp with
      | error e => exact status_colours_isHex "unknown"
      | ok code =>
          show isHexColour (if code = 200 ∧ fin - now < 1 then _ else _) = true
          split
          · exact status_colours_isHex _
          split
          · exact status_colours_isHex _
          · exact status_colours_isHex _
  · intro s la
    rw [load_average_update_eq]
    exact rgb_to_str_isHex _ rfl
  · intro s
    exact rgb_to_str_isHex _ rfl

/-- Witness for C10: the base no-op update and a non-rate-limited health
update both preserve the hex-colour invariant on concrete monitors whose
colour is the default blue `"0000ff"`. -/
theorem claim10_hex_colour_invariant_witness :
    isHexColour (Monitor.update ⟨["left"], "0000ff"⟩).1.current_colour = true ∧
    isHexColour
      (site_health.update health_test_state 20 21 (Except.ok 200)).1.current_colour = true :=
  ⟨claim10_hex_colour_invariant.2.2.1 ⟨["left"], "0000ff"⟩ (by decide),
   claim10_hex_colour_invariant.2.2.2.1 health_test_state 20 21 (Except.ok 200) (by decide)⟩
